import Mathlib

set_option maxRecDepth 100000

/-
  Verification development for the autoCRM repository.

  Shallow embedding of the service-lifecycle scheduling engine and the
  transaction plumbing:
  - the client-side preview generator generateTimelineNodes
    (ServiceFlowTimeline component),
  - the database trigger function generate_scheduled_service_tasks
    (lifecycle migration SQL),
  - the snapshot-capture trigger auto_create_customer_product_v2 and the
    transaction numbering trigger generate_transaction_number
    (transaction_order_migration.sql),
  - the VAT / net-amount arithmetic of TransactionFormV2 and PaymentSection.

  Machine integers are modelled as Int (SQL INT, JS number used integrally),
  currency amounts as Rat.  SQL NULL and JS undefined are modelled as
  Option.  Dates are concrete Gregorian calendar dates.
-/

namespace AutoCRM

/-! ## Calendar dates

SQL `date + int` adds days on the proleptic Gregorian calendar; the JS
preview uses `Date.setMonth(getMonth() + k)`, which adds calendar months
and rolls an overflowing day-of-month into the following month. -/

structure Date where
  year : Int
  month : Nat
  day : Nat
deriving DecidableEq

def isLeapYear (y : Int) : Bool :=
  y % 4 = 0 && (y % 100 ≠ 0 || y % 400 = 0)

def daysInMonth (y : Int) (m : Nat) : Nat :=
  if m = 2 then (if isLeapYear y then 29 else 28)
  else if m = 4 ∨ m = 6 ∨ m = 9 ∨ m = 11 then 30
  else 31

def nextDay (d : Date) : Date :=
  if d.day < daysInMonth d.year d.month then ⟨d.year, d.month, d.day + 1⟩
  else if d.month < 12 then ⟨d.year, d.month + 1, 1⟩
  else ⟨d.year + 1, 1, 1⟩

def prevDay (d : Date) : Date :=
  if 1 < d.day then ⟨d.year, d.month, d.day - 1⟩
  else if 1 < d.month then ⟨d.year, d.month - 1, daysInMonth d.year (d.month - 1)⟩
  else ⟨d.year - 1, 12, 31⟩

/-- SQL date arithmetic: `date + n` days (negative n subtracts). -/
def addDays (d : Date) (n : Int) : Date :=
  if 0 ≤ n then Nat.iterate nextDay n.toNat d else Nat.iterate prevDay (-n).toNat d

/-- JS `date.setMonth(date.getMonth() + k)`: month-index arithmetic with
year carry; a day-of-month beyond the target month's length rolls into the
next month (one carry always suffices since the overflow is at most 3). -/
def jsAddMonths (d : Date) (k : Int) : Date :=
  let t : Int := (d.month : Int) - 1 + k
  let y := d.year + t.fdiv 12
  let m := (t.emod 12).toNat + 1
  if d.day ≤ daysInMonth y m then ⟨y, m, d.day⟩
  else
    let d2 := d.day - daysInMonth y m
    if m < 12 then ⟨y, m + 1, d2⟩ else ⟨y + 1, 1, d2⟩

/-! ## Service flow configuration

`service_flow_config` is a JSONB blob on `products` (copied verbatim into
`customer_products.service_flow_config_snapshot`); in the client it is an
optional object with optional phase sub-records.  A missing object, a
missing phase sub-record, or a missing field is NULL / undefined, modelled
as `none`. -/

inductive Phase where
  | onboarding
  | retention
  | maturity
deriving DecidableEq

structure OnboardingCfg where
  enabled : Bool
  task_name : Option String
  message_template_id : Option Nat
deriving DecidableEq

structure RetentionCfg where
  enabled : Bool
  reminder_days_before : Option Int
  message_template_id : Option Nat
deriving DecidableEq

structure MaturityCfg where
  enabled : Bool
  task_name : Option String
  message_template_id : Option Nat
deriving DecidableEq

structure ServiceFlowConfig where
  onboarding : Option OnboardingCfg
  retention : Option RetentionCfg
  maturity : Option MaturityCfg
deriving DecidableEq

/-- JS `config?.onboarding?.enabled` and SQL
`(config->'onboarding'->>'enabled')::boolean` both treat a broken access
chain (undefined / NULL) as false in an if-condition. -/
def onboardingEnabled (cfg : Option ServiceFlowConfig) : Bool :=
  match cfg.bind (fun c => c.onboarding) with
  | some o => o.enabled
  | none => false

def retentionEnabled (cfg : Option ServiceFlowConfig) : Bool :=
  match cfg.bind (fun c => c.retention) with
  | some r => r.enabled
  | none => false

def maturityEnabled (cfg : Option ServiceFlowConfig) : Bool :=
  match cfg.bind (fun c => c.maturity) with
  | some m => m.enabled
  | none => false

def onboardingTaskName (cfg : Option ServiceFlowConfig) : Option String :=
  (cfg.bind (fun c => c.onboarding)).bind (fun o => o.task_name)

def onboardingTemplate (cfg : Option ServiceFlowConfig) : Option Nat :=
  (cfg.bind (fun c => c.onboarding)).bind (fun o => o.message_template_id)

def retentionTemplate (cfg : Option ServiceFlowConfig) : Option Nat :=
  (cfg.bind (fun c => c.retention)).bind (fun r => r.message_template_id)

def maturityTaskName (cfg : Option ServiceFlowConfig) : Option String :=
  (cfg.bind (fun c => c.maturity)).bind (fun m => m.task_name)

def maturityTemplate (cfg : Option ServiceFlowConfig) : Option Nat :=
  (cfg.bind (fun c => c.maturity)).bind (fun m => m.message_template_id)

/-- JS `x || d` on an optional string: undefined and the empty string both
fall back to the default. -/
def jsOrElse (s : Option String) (d : String) : String :=
  match s with
  | some v => if v = "" then d else v
  | none => d

/-- JS `v > 0` where v may be undefined (`undefined > 0` is false), and SQL
`v > 0` where v may be NULL (`NULL > 0` is not true). -/
def optPos (v : Option Int) : Bool :=
  match v with
  | some n => decide (0 < n)
  | none => false

/-! ## The retention loop

Both call sites run `m := interval; while m < lifecycle: emit node(m);
m := m + interval`.  The loop is embedded with explicit fuel; every call
site first guards `interval > 0` (the client inside its retention
condition, the trigger by an early return on `interval <= 0`), under which
the loop performs at most `lifecycle` iterations, so fuel
`lifecycle.toNat` never runs out. -/

def retentionAux (lifecycle interval : Int) : Nat → Int → List Int
  | 0, _ => []
  | fuel + 1, m => if m < lifecycle then m :: retentionAux lifecycle interval fuel (m + interval) else []

def retentionMonths (lifecycle interval : Int) : List Int :=
  retentionAux lifecycle interval lifecycle.toNat interval

/-! ## Client-side preview: generateTimelineNodes (ServiceFlowTimeline)

The source formats each node's date to a Thai locale string for display;
the model keeps the computed `Date` value itself, since the formatting is
pure rendering. -/

structure FlowPreviewNode where
  month : Int
  date : Date
  phase : Phase
  action : String
deriving DecidableEq

/-- The fields of `Product` read by the timeline component. -/
structure ProductLifecycle where
  lifecycle_months : Option Int
  service_interval_months : Option Int
  service_flow_config : Option ServiceFlowConfig
deriving DecidableEq

def generateTimelineNodes (product : ProductLifecycle) (serviceStartDate : Date) :
    List FlowPreviewNode :=
  -- if (!lifecycle_months || lifecycle_months <= 0) return nodes;
  match product.lifecycle_months with
  | none => []
  | some lifecycle_months =>
    if lifecycle_months ≤ 0 then []
    else
      let onb : List FlowPreviewNode :=
        if onboardingEnabled product.service_flow_config then
          [⟨0, serviceStartDate, Phase.onboarding,
            jsOrElse (onboardingTaskName product.service_flow_config) "ติดตั้ง"⟩]
        else []
      let ret : List FlowPreviewNode :=
        if retentionEnabled product.service_flow_config
            && optPos product.service_interval_months then
          (retentionMonths lifecycle_months (product.service_interval_months.getD 0)).map
            (fun m => ⟨m, jsAddMonths serviceStartDate m, Phase.retention, "ล้าง/บำรุง"⟩)
        else []
      let mat : List FlowPreviewNode :=
        if maturityEnabled product.service_flow_config then
          [⟨lifecycle_months, jsAddMonths serviceStartDate lifecycle_months, Phase.maturity,
            jsOrElse (maturityTaskName product.service_flow_config) "ต่อ MA"⟩]
        else []
      onb ++ ret ++ mat

/-! ## Database trigger: generate_scheduled_service_tasks

Fires AFTER INSERT on `customer_products`.  It reads only the snapshot
columns and `installation_date` of the new row (plus the default message
templates); lifetime/interval NULLs are coalesced to 0 and the function
returns immediately when `lifecycle <= 0 OR interval <= 0`.  Retention and
maturity dates are `installation_date + months * 30` days. -/

structure CustomerProductRow where
  id : Nat
  customer_id : Option Nat
  product_id : Nat
  transaction_id : Nat
  transaction_item_id : Nat
  quantity : Int
  installation_date : Date
  warranty_end_date : Date
  next_service_date : Date
  status : String
  service_flow_config_snapshot : Option ServiceFlowConfig
  lifecycle_months_snapshot : Option Int
  service_interval_months_snapshot : Option Int
deriving DecidableEq

/-- One row of `scheduled_service_tasks`, fields in the INSERT column
order of the trigger. -/
structure ScheduledServiceTask where
  customer_product_id : Nat
  customer_id : Option Nat
  phase : Phase
  scheduled_date : Date
  task_name : String
  message_template_id : Option Nat
deriving DecidableEq

/-- Results of the three default-template SELECTs
(`WHERE type = ... AND is_default = true LIMIT 1`). -/
structure TemplateDefaults where
  onboarding : Option Nat
  retention : Option Nat
  maturity : Option Nat
deriving DecidableEq

def generate_scheduled_service_tasks (row : CustomerProductRow)
    (defaults : TemplateDefaults) : List ScheduledServiceTask :=
  -- v_config := COALESCE(NEW.service_flow_config_snapshot, '{}'::jsonb):
  -- key lookups on '{}' yield NULL, which the Option chain models directly.
  let v_config := row.service_flow_config_snapshot
  let v_lifecycle := row.lifecycle_months_snapshot.getD 0
  let v_interval := row.service_interval_months_snapshot.getD 0
  if v_lifecycle ≤ 0 ∨ v_interval ≤ 0 then []
  else
    let onb : List ScheduledServiceTask :=
      if onboardingEnabled v_config then
        [⟨row.id, row.customer_id, Phase.onboarding, row.installation_date,
          (onboardingTaskName v_config).getD "Install Product",
          (onboardingTemplate v_config).orElse (fun _ => defaults.onboarding)⟩]
      else []
    let ret : List ScheduledServiceTask :=
      if retentionEnabled v_config then
        (retentionMonths v_lifecycle v_interval).map
          (fun m => ⟨row.id, row.customer_id, Phase.retention,
            addDays row.installation_date (m * 30),
            "Service Reminder - Month " ++ toString m,
            (retentionTemplate v_config).orElse (fun _ => defaults.retention)⟩)
      else []
    let mat : List ScheduledServiceTask :=
      if maturityEnabled v_config then
        [⟨row.id, row.customer_id, Phase.maturity,
          addDays row.installation_date (v_lifecycle * 30),
          (maturityTaskName v_config).getD "Call for MA Renewal",
          (maturityTemplate v_config).orElse (fun _ => defaults.maturity)⟩]
      else []
    onb ++ ret ++ mat

/-! ## Snapshot capture: auto_create_customer_product_v2

Fires AFTER INSERT on `transaction_items`.  `SELECT * INTO` without STRICT
leaves every record field NULL when no row matches, so a deleted product
yields an all-NULL `v_product`; all field accesses on it then see NULL. -/

structure VProduct where
  product_type : Option String
  lifecycle_months : Option Int
  service_interval_months : Option Int
  usage_duration_days : Option Int
  service_flow_config : Option ServiceFlowConfig
deriving DecidableEq

structure TransactionItemRow where
  id : Nat
  transaction_id : Nat
  product_id : Nat
  quantity : Int
  service_start_date : Option Date
deriving DecidableEq

structure MessageTemplate where
  id : Nat
  mtype : Phase
  is_default : Bool
deriving DecidableEq

structure DBState where
  products : List (Nat × VProduct)
  transactions : List (Nat × Option Nat)
  message_templates : List MessageTemplate
  customer_products : List CustomerProductRow
  scheduled_service_tasks : List ScheduledServiceTask
  next_id : Nat
deriving DecidableEq

/-- `SELECT * INTO v_product FROM products WHERE id = ...` (no STRICT):
a missing row leaves the record variable with NULL in every field. -/
def lookupProduct (s : DBState) (pid : Nat) : VProduct :=
  match s.products.find? (fun kv => kv.fst == pid) with
  | some kv => kv.snd
  | none => ⟨none, none, none, none, none⟩

def lookupCustomer (s : DBState) (txid : Nat) : Option Nat :=
  match s.transactions.find? (fun kv => kv.fst == txid) with
  | some kv => kv.snd
  | none => none

/-- `SELECT id FROM message_templates WHERE type = p AND is_default = true
LIMIT 1`. -/
def defaultTemplate (s : DBState) (p : Phase) : Option Nat :=
  ((s.message_templates.filter (fun t => decide (t.mtype = p) && t.is_default)).head?).map
    (fun t => t.id)

/-- The row `auto_create_customer_product_v2` inserts for an item (in
INSERT column order), or `none` when the product-type guard rejects it. -/
def auto_create_customer_product_v2_row (s : DBState) (item : TransactionItemRow)
    (today : Date) : Option CustomerProductRow :=
  let v_customer_id := lookupCustomer s item.transaction_id
  let v_product := lookupProduct s item.product_id
  let v_install_date := item.service_start_date.getD today
  let v_warranty_days : Int :=
    if optPos v_product.lifecycle_months then (v_product.lifecycle_months.getD 0) * 30
    else v_product.usage_duration_days.getD 365
  if v_product.product_type = some "tangible" ∨ v_product.product_type = none then
    some ⟨s.next_id, v_customer_id, item.product_id, item.transaction_id, item.id,
      item.quantity, v_install_date, addDays v_install_date v_warranty_days,
      addDays v_install_date ((v_product.service_interval_months.getD 6) * 30),
      "active", v_product.service_flow_config, v_product.lifecycle_months,
      v_product.service_interval_months⟩
  else none

def auto_create_customer_product_v2 (s : DBState) (item : TransactionItemRow)
    (today : Date) : DBState :=
  match auto_create_customer_product_v2_row s item today with
  | some row =>
    { s with customer_products := s.customer_products ++ [row], next_id := s.next_id + 1 }
  | none => s

/-- The AFTER INSERT trigger on `customer_products`: materialize the
schedule for the new row.  Its inputs are the new row itself and the
default templates; it never re-reads `products`. -/
def on_customer_product_created_schedule (s : DBState) (row : CustomerProductRow) : DBState :=
  let defaults : TemplateDefaults :=
    ⟨defaultTemplate s Phase.onboarding, defaultTemplate s Phase.retention,
     defaultTemplate s Phase.maturity⟩
  { s with scheduled_service_tasks :=
      s.scheduled_service_tasks ++ generate_scheduled_service_tasks row defaults }

/-- Recording one transaction item: the snapshot-capture trigger fires,
and if it inserted a customer_products row, the schedule trigger fires on
that row. -/
def processTransactionItem (s : DBState) (item : TransactionItemRow) (today : Date) :
    DBState :=
  let s1 := auto_create_customer_product_v2 s item today
  match auto_create_customer_product_v2_row s item today with
  | some row => on_customer_product_created_schedule s1 row
  | none => s1

/-- `UPDATE products SET ... WHERE id = pid`, an arbitrary later edit to
one product's definition.  It touches only the `products` table. -/
def updateProduct (s : DBState) (pid : Nat) (f : VProduct → VProduct) : DBState :=
  { s with products := s.products.map (fun kv => if kv.fst = pid then (kv.fst, f kv.snd) else kv) }

/-! ## Transaction numbering: generate_transaction_number -/

/-- Postgres `LPAD(s, 3, '0')`: left-pad to length 3, truncating to the
first 3 characters when s is longer.  Character counting and truncation
are stated on the string's character list. -/
def lpad3 (s : String) : String :=
  if 3 ≤ s.data.length then String.mk (s.data.take 3)
  else String.mk (List.replicate (3 - s.data.length) '0' ++ s.data)

/-- `UPPER(LEFT(customer_id::text, 6))`, on the character list. -/
def upper6 (s : String) : String := String.mk ((s.data.take 6).map Char.toUpper)

/-- `t LIKE p || '%'` for a pattern p with no wildcard characters: t
starts with p.  Stated on the character lists of the strings. -/
def likeStartsWith (p t : String) : Bool := p.data.isPrefixOf t.data

/-- The trigger body: build the month-and-customer pfx, count existing
transaction numbers starting with it (LIKE pfx || '%'; the pfx contains no
wildcard characters, so LIKE is a plain starts-with test), add one, pad. -/
def generate_transaction_number (yyyymm customer_id : String)
    (existing : List String) : String :=
  let v_customer_pfx := upper6 customer_id
  let v_pfx := "INV-" ++ yyyymm ++ "-" ++ v_customer_pfx ++ "-"
  let v_count := (existing.filter (fun t => likeStartsWith v_pfx t)).length + 1
  v_pfx ++ lpad3 (toString v_count)

/-- The BEFORE INSERT trigger runs only `WHEN (NEW.transaction_no IS
NULL)`; a supplied number is left unchanged. -/
def on_transaction_generate_number (supplied : Option String)
    (yyyymm customer_id : String) (existing : List String) : String :=
  match supplied with
  | some n => n
  | none => generate_transaction_number yyyymm customer_id existing

/-! ## VAT / net-amount arithmetic (TransactionFormV2, PaymentSection)

Currency amounts are modelled as rationals; `Math.round` is
round-half-up. -/

structure VatSettings where
  enable_vat : Bool
  vat_rate : Rat
deriving DecidableEq

structure TransactionItemPayload where
  product_id : String
  quantity : Rat
  unit_price : Rat
  total_price : Rat
deriving DecidableEq

/-- JS `Math.round`: nearest integer, halves toward positive infinity. -/
def jsRound (x : Rat) : Int := Int.floor (x + 1 / 2)

/-- `items.reduce((sum, item) => sum + (item.total_price || 0), 0)`;
`|| 0` only replaces a falsy value (0 or undefined) by 0 and is the
identity on rationals. -/
def calculateSubtotal (items : List TransactionItemPayload) : Rat :=
  items.foldl (fun sum item => sum + item.total_price) 0

def calculateGrandTotal (items : List TransactionItemPayload) (discount : Rat)
    (vatSettings : VatSettings) : Rat :=
  let subtotal := calculateSubtotal items
  let afterDiscount := subtotal - discount
  let vat : Rat :=
    if vatSettings.enable_vat then ((jsRound (afterDiscount * (vatSettings.vat_rate / 100)) : Int) : Rat)
    else 0
  afterDiscount + vat

/-- The same arithmetic as displayed by PaymentSection (lines 49-53),
computed from the subtotal it receives as a prop. -/
def paymentSectionGrandTotal (subtotal discount : Rat) (vatSettings : VatSettings) : Rat :=
  let afterDiscount := subtotal - discount
  let vatAmount : Rat :=
    if vatSettings.enable_vat then ((jsRound (afterDiscount * (vatSettings.vat_rate / 100)) : Int) : Rat)
    else 0
  afterDiscount + vatAmount

/-! ## Sample data for concrete evaluations -/

/-- A flow config with all three phases enabled and no overrides. -/
def cfgAllEnabled : ServiceFlowConfig :=
  ⟨some ⟨true, none, none⟩, some ⟨true, none, none⟩, some ⟨true, none, none⟩⟩

/-- Onboarding and maturity enabled, retention disabled (Scenario D). -/
def cfgOnbMat : ServiceFlowConfig :=
  ⟨some ⟨true, none, none⟩, some ⟨false, none, none⟩, some ⟨true, none, none⟩⟩

def anchor2025 : Date := ⟨2025, 1, 15⟩

def noDefaults : TemplateDefaults := ⟨none, none, none⟩

/-- A customer_products row with the given snapshot and installation date;
the remaining columns are fixed sample values the schedule trigger does
not read (warranty and next-service summary dates are set to the anchor). -/
def mkSnapshotRow (cfg : Option ServiceFlowConfig) (lm im : Option Int)
    (install : Date) : CustomerProductRow :=
  ⟨1, some 5, 42, 1, 7, 1, install, install, install, "active", cfg, lm, im⟩

/-- A database state whose `products` table is empty (the referenced
product has been deleted) but which still has the purchase transaction. -/
def missingProductState : DBState := ⟨[], [(1, some 5)], [], [], [], 10⟩

/-- A transaction item referencing product 42, which does not exist in
`missingProductState`. -/
def orphanItem : TransactionItemRow := ⟨7, 1, 42, 1, some ⟨2025, 1, 15⟩⟩

/-! # Theorems -/

/-- Helper: the subtotal fold is the sum of the items' total prices. -/
theorem calculateSubtotal_eq_sum (items : List TransactionItemPayload) :
    calculateSubtotal items = (items.map (fun i => i.total_price)).sum := by
  simp [calculateSubtotal, List.sum_eq_foldl, List.foldl_map]

/-- C9: for every list of line items, discount and VAT setting, the net
amount equals (sum of item.total_price - discount_amount) + tax, where tax
is 0 with VAT disabled and otherwise the after-discount amount times
vat_rate/100 rounded to the nearest currency unit; and the totals shown by
PaymentSection agree with the ones TransactionFormV2 persists. -/
theorem net_amount_invariant (items : List TransactionItemPayload) (discount : Rat)
    (vs : VatSettings) :
    calculateGrandTotal items discount vs
      = ((items.map (fun i => i.total_price)).sum - discount)
        + (if vs.enable_vat
           then ((jsRound (((items.map (fun i => i.total_price)).sum - discount)
                    * (vs.vat_rate / 100)) : Int) : Rat)
           else 0)
    ∧ paymentSectionGrandTotal (calculateSubtotal items) discount vs
      = calculateGrandTotal items discount vs := by
  constructor
  · simp [calculateGrandTotal, calculateSubtotal_eq_sum]
  · simp [calculateGrandTotal, paymentSectionGrandTotal]

/-- C8: with no transaction number supplied, the generated number is
'INV-' ++ YYYYMM ++ '-' ++ first 6 characters of the customer id
uppercased ++ '-' ++ the count of existing numbers sharing that prefix
plus one, zero-padded to 3 digits; a supplied number is left unchanged. -/
theorem transaction_number_format (yyyymm cust : String) (existing : List String)
    (n : String) :
    on_transaction_generate_number none yyyymm cust existing
      = "INV-" ++ yyyymm ++ "-" ++ upper6 cust ++ "-"
        ++ lpad3 (toString
            ((existing.countP
               (fun t => likeStartsWith ("INV-" ++ yyyymm ++ "-" ++ upper6 cust ++ "-") t)) + 1))
    ∧ on_transaction_generate_number (some n) yyyymm cust existing = n := by
  constructor
  · simp [on_transaction_generate_number, generate_transaction_number,
      List.countP_eq_length_filter]
  · rfl

/-- C6: recording a purchase item snapshots the product's config onto the
new customer_products row, and any later UPDATE of the products table
leaves both the stored rows (with their snapshots) and the materialized
scheduled_service_tasks unchanged; the snapshot written at creation is
exactly the product's configuration as read at creation time. -/
theorem snapshot_immutability (s : DBState) (item : TransactionItemRow) (today : Date)
    (pid : Nat) (f : VProduct → VProduct) :
    ((updateProduct (processTransactionItem s item today) pid f).customer_products
       = (processTransactionItem s item today).customer_products)
    ∧ ((updateProduct (processTransactionItem s item today) pid f).scheduled_service_tasks
       = (processTransactionItem s item today).scheduled_service_tasks)
    ∧ ((auto_create_customer_product_v2_row s item today).map
         (fun r => (r.service_flow_config_snapshot, r.lifecycle_months_snapshot,
                    r.service_interval_months_snapshot))
       = (auto_create_customer_product_v2_row s item today).map
         (fun _ => ((lookupProduct s item.product_id).service_flow_config,
                    (lookupProduct s item.product_id).lifecycle_months,
                    (lookupProduct s item.product_id).service_interval_months))) := by
  refine ⟨rfl, rfl, ?_⟩
  simp only [auto_create_customer_product_v2_row]
  split <;> rfl

/-- C7: when the product referenced by a purchase line item no longer
exists, `auto_create_customer_product_v2` does not fail; the all-NULL
product record passes the `product_type IS NULL` branch of the tangible
check and a customer_products row is silently inserted with NULL snapshot
columns. -/
theorem blank_snapshot_on_missing_product :
    (processTransactionItem missingProductState orphanItem ⟨2025, 1, 15⟩).customer_products.map
        (fun r => (r.product_id, r.service_flow_config_snapshot,
                   r.lifecycle_months_snapshot, r.service_interval_months_snapshot))
      = [(42, none, none, none)] := by decide

/-- C3: with lifecycle=24, interval=6 and all three phases enabled, the
preview produces nodes at months [0, 6, 12, 18, 24] with phases
[onboarding, retention, retention, retention, maturity], and the trigger
materializes five rows with the same phases in the same order. -/
theorem scenario_a (anchor : Date) (defaults : TemplateDefaults) (idn : Nat)
    (cust : Option Nat) (pid tid tiid : Nat) (q : Int) (w1 w2 : Date) (st : String) :
    ((generateTimelineNodes ⟨some 24, some 6, some cfgAllEnabled⟩ anchor).map
        (fun n => (n.month, n.phase))
      = [(0, Phase.onboarding), (6, Phase.retention), (12, Phase.retention),
         (18, Phase.retention), (24, Phase.maturity)])
    ∧ ((generate_scheduled_service_tasks
          ⟨idn, cust, pid, tid, tiid, q, anchor, w1, w2, st, some cfgAllEnabled, some 24, some 6⟩
          defaults).map (fun t => t.phase)
      = [Phase.onboarding, Phase.retention, Phase.retention, Phase.retention,
         Phase.maturity]) := by
  have hm : retentionMonths 24 6 = [6, 12, 18] := by decide
  constructor
  · simp [generateTimelineNodes, cfgAllEnabled, onboardingEnabled, retentionEnabled,
      maturityEnabled, optPos, hm]
  · simp [generate_scheduled_service_tasks, cfgAllEnabled, onboardingEnabled,
      retentionEnabled, maturityEnabled, hm]

/-- C4: at anchor 2025-01-15 with lifecycle=6, interval=3 and only
onboarding and maturity enabled, the preview computes the maturity node by
calendar-month addition (2025-07-15), but the trigger computes
installation_date + 6*30 days = 2025-07-14: the persisted detailed
schedule uses 30-day blocks, not calendar months. -/
theorem scenario_d_divergence :
    ((generateTimelineNodes ⟨some 6, some 3, some cfgOnbMat⟩ anchor2025).map
        (fun n => (n.month, n.date, n.phase))
      = [(0, ⟨2025, 1, 15⟩, Phase.onboarding), (6, ⟨2025, 7, 15⟩, Phase.maturity)])
    ∧ ((generate_scheduled_service_tasks
          (mkSnapshotRow (some cfgOnbMat) (some 6) (some 3) anchor2025) noDefaults).map
          (fun t => (t.phase, t.scheduled_date))
      = [(Phase.onboarding, ⟨2025, 1, 15⟩), (Phase.maturity, ⟨2025, 7, 14⟩)]) := by
  constructor
  · decide
  · decide

/-- Helper: filtering a mapped list by a predicate that rejects every
image gives the empty list. -/
theorem filter_map_none {α β : Type} (f : α → β) (p : β → Bool) (l : List α)
    (h : ∀ a, p (f a) = false) : (l.map f).filter p = [] := by
  induction l with
  | nil => rfl
  | cons a t ih => simp [h a, ih]

/-- C1 (amended): when the trigger and the preview read the same config,
lifecycle and interval with interval > 0, they emit the same number of
nodes with the same phases in the same order.  (Scheduled dates and action
labels still differ in general; see the counterexample.) -/
theorem trigger_preview_phase_agreement
    (row : CustomerProductRow) (lm im : Int) (defaults : TemplateDefaults)
    (h1 : row.lifecycle_months_snapshot = some lm)
    (h2 : row.service_interval_months_snapshot = some im)
    (h3 : 0 < im) :
    ((generate_scheduled_service_tasks row defaults).map (fun t => t.phase)
      = (generateTimelineNodes ⟨some lm, some im, row.service_flow_config_snapshot⟩
          row.installation_date).map (fun n => n.phase))
    ∧ (generate_scheduled_service_tasks row defaults).length
      = (generateTimelineNodes ⟨some lm, some im, row.service_flow_config_snapshot⟩
          row.installation_date).length := by
  have hph : (generate_scheduled_service_tasks row defaults).map (fun t => t.phase)
      = (generateTimelineNodes ⟨some lm, some im, row.service_flow_config_snapshot⟩
          row.installation_date).map (fun n => n.phase) := by
    by_cases hl : lm ≤ 0
    · simp [generate_scheduled_service_tasks, generateTimelineNodes, h1, h2, hl]
    · have hg : ¬(lm ≤ 0 ∨ im ≤ 0) := by omega
      have him : ¬ im ≤ 0 := by omega
      have hopt : optPos (some im) = true := by simp [optPos, h3]
      cases hon : onboardingEnabled row.service_flow_config_snapshot <;>
        cases hre : retentionEnabled row.service_flow_config_snapshot <;>
          cases hma : maturityEnabled row.service_flow_config_snapshot <;>
            simp [generate_scheduled_service_tasks, generateTimelineNodes, h1, h2, hg, hl,
              him, hon, hre, hma, hopt, List.map_map, Function.comp_def]
  refine ⟨hph, ?_⟩
  have := congrArg List.length hph
  simpa using this

/-- C1 (counterexample): with interval = 0 the trigger emits nothing while
the preview still emits onboarding and maturity nodes, and with
lifecycle=24, interval=6 the two date sequences disagree (30-day blocks
vs calendar months). -/
theorem trigger_preview_divergence :
    ((generate_scheduled_service_tasks
        (mkSnapshotRow (some cfgAllEnabled) (some 12) (some 0) anchor2025) noDefaults).length = 0
     ∧ (generateTimelineNodes ⟨some 12, some 0, some cfgAllEnabled⟩ anchor2025).length = 2)
    ∧ ((generate_scheduled_service_tasks
        (mkSnapshotRow (some cfgAllEnabled) (some 24) (some 6) anchor2025) noDefaults).map
        (fun t => t.scheduled_date)
      ≠ (generateTimelineNodes ⟨some 24, some 6, some cfgAllEnabled⟩ anchor2025).map
        (fun n => n.date)) := by decide

/-- C2 (amended): with onboarding enabled and lifecycle > 0, the preview
emits exactly one onboarding node at month 0 with date = anchor and action
= configured task name or the default label, for every intervalMonths; the
trigger does the same only under interval > 0 (with interval <= 0 it emits
no nodes at all; see the counterexample). -/
theorem onboarding_node_amended
    (anchor : Date) (cfg : Option ServiceFlowConfig) (lm : Int) (im : Option Int)
    (imt : Int) (idn : Nat) (cust : Option Nat) (pid tid tiid : Nat) (q : Int)
    (w1 w2 : Date) (st : String) (defaults : TemplateDefaults)
    (hon : onboardingEnabled cfg = true) (hl : 0 < lm) (hi : 0 < imt) :
    ((generateTimelineNodes ⟨some lm, im, cfg⟩ anchor).filter
        (fun n => decide (n.phase = Phase.onboarding))
      = [⟨0, anchor, Phase.onboarding, jsOrElse (onboardingTaskName cfg) "ติดตั้ง"⟩])
    ∧ ((generate_scheduled_service_tasks
          ⟨idn, cust, pid, tid, tiid, q, anchor, w1, w2, st, cfg, some lm, some imt⟩
          defaults).filter (fun t => decide (t.phase = Phase.onboarding))
      = [⟨idn, cust, Phase.onboarding, anchor,
          (onboardingTaskName cfg).getD "Install Product",
          (onboardingTemplate cfg).orElse (fun _ => defaults.onboarding)⟩]) := by
  have hl' : ¬ lm ≤ 0 := by omega
  have hg : ¬(lm ≤ 0 ∨ imt ≤ 0) := by omega
  constructor
  · cases hre : retentionEnabled cfg && optPos im <;>
      cases hma : maturityEnabled cfg <;>
        simp [generateTimelineNodes, hl', hon, hre, hma, filter_map_none]
  · cases hre : retentionEnabled cfg <;>
      cases hma : maturityEnabled cfg <;>
        simp [generate_scheduled_service_tasks, hg, hon, hre, hma, filter_map_none]

/-- C2 (counterexample): onboarding enabled, lifecycle = 12, interval = 0:
the trigger emits no onboarding node, so the contract does not hold
for the persistence-side generator regardless of intervalMonths. -/
theorem onboarding_node_counterexample :
    onboardingEnabled (some cfgAllEnabled) = true
    ∧ ((generate_scheduled_service_tasks
          (mkSnapshotRow (some cfgAllEnabled) (some 12) (some 0) anchor2025) noDefaults).filter
        (fun t => decide (t.phase = Phase.onboarding)) = []) := by decide

/-- C5: with interval = 0 and retention enabled, both generators emit zero
retention nodes: the preview's retention branch is guarded by
interval > 0 and the trigger returns before its loop, so the loop is never
entered and both terminate. -/
theorem interval_zero_no_retention
    (anchor : Date) (lm lms : Option Int) (cfg : Option ServiceFlowConfig)
    (idn : Nat) (cust : Option Nat) (pid tid tiid : Nat) (q : Int)
    (w1 w2 : Date) (st : String) (defaults : TemplateDefaults)
    (_hre : retentionEnabled cfg = true) :
    ((generateTimelineNodes ⟨lm, some 0, cfg⟩ anchor).filter
        (fun n => decide (n.phase = Phase.retention)) = [])
    ∧ (generate_scheduled_service_tasks
        ⟨idn, cust, pid, tid, tiid, q, anchor, w1, w2, st, cfg, lms, some 0⟩ defaults
      = []) := by
  constructor
  · match lm with
    | none => rfl
    | some l =>
      by_cases hl : l ≤ 0
      · simp [generateTimelineNodes, hl]
      · cases hon : onboardingEnabled cfg <;>
          cases hma : maturityEnabled cfg <;>
            simp [generateTimelineNodes, hl, hon, hma, optPos]
  · simp [generate_scheduled_service_tasks]

/-- C10: the preview generator is total on missing configuration: with
lifecycle > 0 it returns the empty sequence when service_flow_config is
absent, omits exactly the nodes of any missing phase sub-record, and
returns the empty sequence when all three are missing. -/
theorem preview_total_on_missing_config
    (anchor : Date) (lm : Int) (im : Option Int) (ob : Option OnboardingCfg)
    (re : Option RetentionCfg) (ma : Option MaturityCfg)
    (hl : 0 < lm) :
    (generateTimelineNodes ⟨some lm, im, none⟩ anchor = [])
    ∧ ((generateTimelineNodes ⟨some lm, im, some ⟨none, re, ma⟩⟩ anchor).filter
        (fun n => decide (n.phase = Phase.onboarding)) = [])
    ∧ ((generateTimelineNodes ⟨some lm, im, some ⟨ob, none, ma⟩⟩ anchor).filter
        (fun n => decide (n.phase = Phase.retention)) = [])
    ∧ ((generateTimelineNodes ⟨some lm, im, some ⟨ob, re, none⟩⟩ anchor).filter
        (fun n => decide (n.phase = Phase.maturity)) = [])
    ∧ (generateTimelineNodes ⟨some lm, im, some ⟨none, none, none⟩⟩ anchor = []) := by
  have hl' : ¬ lm ≤ 0 := by omega
  refine ⟨?_, ?_, ?_, ?_, ?_⟩
  · simp [generateTimelineNodes, onboardingEnabled, retentionEnabled, maturityEnabled]
  · cases hre : retentionEnabled (some ⟨none, re, ma⟩) && optPos im <;>
      cases hma : maturityEnabled (some (⟨none, re, ma⟩ : ServiceFlowConfig)) <;>
        simp [generateTimelineNodes, hl', hre, hma, onboardingEnabled, filter_map_none]
  · cases hon : onboardingEnabled (some (⟨ob, none, ma⟩ : ServiceFlowConfig)) <;>
      cases hma : maturityEnabled (some (⟨ob, none, ma⟩ : ServiceFlowConfig)) <;>
        simp [generateTimelineNodes, hl', hon, hma, retentionEnabled]
  · cases hon : onboardingEnabled (some (⟨ob, re, none⟩ : ServiceFlowConfig)) <;>
      cases hre : retentionEnabled (some (⟨ob, re, none⟩ : ServiceFlowConfig)) && optPos im <;>
        simp [generateTimelineNodes, hl', hon, hre, maturityEnabled, filter_map_none]
  · simp [generateTimelineNodes, onboardingEnabled, retentionEnabled, maturityEnabled]

/-- Witness for C1 (amended), at lifecycle=24, interval=6, all phases
enabled. -/
theorem trigger_preview_phase_agreement_witness :
    (mkSnapshotRow (some cfgAllEnabled) (some 24) (some 6) anchor2025).lifecycle_months_snapshot
      = some 24
    ∧ (mkSnapshotRow (some cfgAllEnabled) (some 24) (some 6) anchor2025).service_interval_months_snapshot
      = some 6
    ∧ (0 : Int) < 6
    ∧ (((generate_scheduled_service_tasks
          (mkSnapshotRow (some cfgAllEnabled) (some 24) (some 6) anchor2025) noDefaults).map
            (fun t => t.phase)
        = (generateTimelineNodes
            ⟨some 24, some 6,
             (mkSnapshotRow (some cfgAllEnabled) (some 24) (some 6) anchor2025).service_flow_config_snapshot⟩
            (mkSnapshotRow (some cfgAllEnabled) (some 24) (some 6) anchor2025).installation_date).map
            (fun n => n.phase))
      ∧ (generate_scheduled_service_tasks
          (mkSnapshotRow (some cfgAllEnabled) (some 24) (some 6) anchor2025) noDefaults).length
        = (generateTimelineNodes
            ⟨some 24, some 6,
             (mkSnapshotRow (some cfgAllEnabled) (some 24) (some 6) anchor2025).service_flow_config_snapshot⟩
            (mkSnapshotRow (some cfgAllEnabled) (some 24) (some 6) anchor2025).installation_date).length) :=
  ⟨rfl, rfl, by decide,
   trigger_preview_phase_agreement
     (mkSnapshotRow (some cfgAllEnabled) (some 24) (some 6) anchor2025) 24 6 noDefaults
     rfl rfl (by decide)⟩

/-- Witness for C2 (amended), at lifecycle=12, preview interval=0,
trigger interval=6. -/
theorem onboarding_node_amended_witness :
    onboardingEnabled (some cfgAllEnabled) = true
    ∧ (0 : Int) < 12
    ∧ (0 : Int) < 6
    ∧ (((generateTimelineNodes ⟨some 12, some 0, some cfgAllEnabled⟩ anchor2025).filter
          (fun n => decide (n.phase = Phase.onboarding))
        = [⟨0, anchor2025, Phase.onboarding,
            jsOrElse (onboardingTaskName (some cfgAllEnabled)) "ติดตั้ง"⟩])
      ∧ ((generate_scheduled_service_tasks
            ⟨1, some 5, 42, 1, 7, 1, anchor2025, anchor2025, anchor2025, "active",
             some cfgAllEnabled, some 12, some 6⟩ noDefaults).filter
            (fun t => decide (t.phase = Phase.onboarding))
        = [⟨1, some 5, Phase.onboarding, anchor2025,
            (onboardingTaskName (some cfgAllEnabled)).getD "Install Product",
            (onboardingTemplate (some cfgAllEnabled)).orElse (fun _ => noDefaults.onboarding)⟩])) :=
  ⟨rfl, by decide, by decide,
   onboarding_node_amended anchor2025 (some cfgAllEnabled) 12 (some 0) 6 1 (some 5) 42 1 7 1
     anchor2025 anchor2025 "active" noDefaults rfl (by decide) (by decide)⟩

/-- Witness for C5, at lifecycle=12, interval=0, all phases enabled. -/
theorem interval_zero_no_retention_witness :
    retentionEnabled (some cfgAllEnabled) = true
    ∧ (((generateTimelineNodes ⟨some 12, some 0, some cfgAllEnabled⟩ anchor2025).filter
          (fun n => decide (n.phase = Phase.retention)) = [])
      ∧ (generate_scheduled_service_tasks
          ⟨1, some 5, 42, 1, 7, 1, anchor2025, anchor2025, anchor2025, "active",
           some cfgAllEnabled, some 12, some 0⟩ noDefaults = [])) :=
  ⟨rfl,
   interval_zero_no_retention anchor2025 (some 12) (some 12) (some cfgAllEnabled) 1 (some 5)
     42 1 7 1 anchor2025 anchor2025 "active" noDefaults rfl⟩

/-- Witness for C10, at lifecycle=12, interval=6. -/
theorem preview_total_on_missing_config_witness :
    (0 : Int) < 12
    ∧ ((generateTimelineNodes ⟨some 12, some 6, none⟩ anchor2025 = [])
      ∧ ((generateTimelineNodes
            ⟨some 12, some 6, some ⟨none, some ⟨true, none, none⟩, some ⟨true, none, none⟩⟩⟩
            anchor2025).filter (fun n => decide (n.phase = Phase.onboarding)) = [])
      ∧ ((generateTimelineNodes
            ⟨some 12, some 6, some ⟨some ⟨true, none, none⟩, none, some ⟨true, none, none⟩⟩⟩
            anchor2025).filter (fun n => decide (n.phase = Phase.retention)) = [])
      ∧ ((generateTimelineNodes
            ⟨some 12, some 6, some ⟨some ⟨true, none, none⟩, some ⟨true, none, none⟩, none⟩⟩
            anchor2025).filter (fun n => decide (n.phase = Phase.maturity)) = [])
      ∧ (generateTimelineNodes ⟨some 12, some 6, some ⟨none, none, none⟩⟩ anchor2025 = [])) :=
  ⟨by decide,
   preview_total_on_missing_config anchor2025 12 (some 6) (some ⟨true, none, none⟩)
     (some ⟨true, none, none⟩) (some ⟨true, none, none⟩) (by decide)⟩

end AutoCRM
